import Mathlib

/-!
Shallow embedding of the `quest` task/future library (Go).

The embedding models the sequential semantics of each method of
`taskImpl[T]` from `task.go` as a pure function on an explicit task
state.  The two mutexes of the implementation are reflected as follows:

* `resolveMu` only serialises method bodies; in a sequential semantics a
  method body runs atomically, so the lock itself needs no state.  The
  double-check of `status` under the lock collapses to a single check.
* `awaitMu` is the reusable one-shot gate: it is write-locked ("armed")
  at construction and by `Reset`/`Yield`, and write-unlocked ("disarmed")
  by a winning `Resolve`/`cancel`.  A reader (`Await`/`Anticipate`) that
  takes `RLock` blocks exactly while the gate is armed.  The field
  `gateArmed` records whether `awaitMu` is currently write-locked.

Methods whose body can suspend (acquire a held lock) or panic return an
`Outcome`: `.blocks` for a suspension that, sequentially, never ends,
`.panics` for `panic(ErrCancelled)`, and `.ret` for a normal return.
Values of the Go `error` type are modelled as `Option String` (`none` = `nil`).
-/

namespace Quest

/-- Status constants `taskPending`, `taskResolved`, `taskCanceled`. -/
inductive TaskStatus where
  | pending
  | resolved
  | canceled
deriving DecidableEq, Repr

/-- The mutable fields of `taskImpl[T]`, plus the write-lock state of the
`awaitMu` gate.  `defaultValue` holds the zero value of `T` that the Go
struct field of the same name keeps. -/
structure TaskState (T : Type) where
  value : T
  defaultValue : T
  status : TaskStatus
  err : Option String
  panicOnCancel : Bool
  disabled : Bool
  gateArmed : Bool
deriving DecidableEq, Repr

variable {T : Type}

/-- Constructor `newTask`: zero value for `value`/`defaultValue` (passed in as `d`),
status `taskPending`, no error, flags false, and `awaitMu` locked. -/
def newTask (d : T) : TaskState T :=
  { value := d
    defaultValue := d
    status := .pending
    err := none
    panicOnCancel := false
    disabled := false
    gateArmed := true }

/-- Method `Resolve`: rejected when `disabled` or `status != taskPending`;
otherwise stores the value, sets `taskResolved` and unlocks `awaitMu`. -/
def resolve (v : T) (s : TaskState T) : TaskState T :=
  if s.disabled then s
  else if s.status ≠ .pending then s
  else { s with value := v, status := .resolved, gateArmed := false }

/-- Method `cancel`: no `disabled` check; returns whether it took effect.
On a pending task it sets `taskCanceled` and unlocks `awaitMu`. -/
def cancel (s : TaskState T) : Bool × TaskState T :=
  if s.status ≠ .pending then (false, s)
  else (true, { s with status := .canceled, gateArmed := false })

/-- Method `Cancel`: calls `cancel` and drops the boolean. -/
def Cancel (s : TaskState T) : TaskState T :=
  (cancel s).2

/-- Method `Fail`: records the error exactly when `cancel` took effect. -/
def fail (e : Option String) (s : TaskState T) : TaskState T :=
  let r := cancel s
  if r.1 then { r.2 with err := e } else r.2

/-- Method `Error`. -/
def errorOf (s : TaskState T) : Option String :=
  s.err

/-- Method `IsCancelled`. -/
def isCancelled (s : TaskState T) : Bool :=
  s.status = .canceled

/-- Method `IsDone`. -/
def isDone (s : TaskState T) : Bool :=
  s.status ≠ .pending

/-- Method `SetPanic`: rejected while disabled. -/
def setPanic (b : Bool) (s : TaskState T) : TaskState T :=
  if s.disabled then s else { s with panicOnCancel := b }

/-- Method `enable` (pool side). -/
def enable (s : TaskState T) : TaskState T :=
  { s with disabled := false }

/-- Method `disable` (pool side). -/
def disable (s : TaskState T) : TaskState T :=
  { s with disabled := true }

/-- Result of running a method body that may suspend or panic. -/
inductive Outcome (A : Type) where
  | blocks
  | panics
  | ret (a : A)
deriving DecidableEq, Repr

/-- Method `Await`: while pending with the gate armed, the `RLock`
suspends; a canceled task with `panicOnCancel` panics with `ErrCancelled`;
otherwise returns `(getValue(), status == taskResolved)`.  The method
writes no field. -/
def awaitO (s : TaskState T) : Outcome (T × Bool) :=
  if s.status = .pending ∧ s.gateArmed then .blocks
  else if s.status = .canceled ∧ s.panicOnCancel then .panics
  else .ret (s.value, s.status = .resolved)

/-- Method `Anticipate`: like `Await` without the panic check. -/
def anticipateO (s : TaskState T) : Outcome (T × Bool) :=
  if s.status = .pending ∧ s.gateArmed then .blocks
  else .ret (s.value, s.status = .resolved)

/-- Method `Await` as a state transformer: the method mutates nothing, so the
state is returned unchanged alongside the outcome. -/
def awaitStep (s : TaskState T) : Outcome (T × Bool) × TaskState T :=
  (awaitO s, s)

/-- Running `n` successive `Await` calls on the same task: the list of outcomes
and the final state. -/
def awaitN (s : TaskState T) : Nat → List (Outcome (T × Bool)) × TaskState T
  | 0 => ([], s)
  | n + 1 =>
    let p := awaitStep s
    let q := awaitN p.2 n
    (p.1 :: q.1, q.2)

/-- Method `Yield`: awaits; on `ok = false` returns `false` unchanged;
on `ok = true` re-locks `awaitMu` (suspending if it is already armed),
moves a non-canceled status back to pending, and restores the default
value.  It never consults `disabled`, `err`, or `panicOnCancel`. -/
def yieldO (s : TaskState T) : Outcome (Bool × TaskState T) :=
  match awaitO s with
  | .blocks => .blocks
  | .panics => .panics
  | .ret r =>
    if !r.2 then .ret (false, s)
    else if s.gateArmed then .blocks
    else .ret (true,
      { s with
        status := if s.status ≠ .canceled then .pending else s.status
        value := s.defaultValue
        gateArmed := true })

/-- Method `Reset`: rejected while disabled or pending; otherwise
re-locks `awaitMu` (suspending if it is already armed), sets pending,
restores the default value, clears the error and the panic flag. -/
def reset (s : TaskState T) : Outcome (Bool × TaskState T) :=
  if s.disabled then .ret (false, s)
  else if s.status = .pending then .ret (false, s)
  else if s.gateArmed then .blocks
  else .ret (true,
    { s with
      status := .pending
      value := s.defaultValue
      err := none
      panicOnCancel := false
      gateArmed := true })

/-- Function `FreeTask` (pool side): `disable` then `Cancel`. -/
def freeTask (s : TaskState T) : TaskState T :=
  Cancel (disable s)

/-- Well-formedness maintained by every sequential execution: the
`awaitMu` gate is armed exactly while the task is pending. -/
def WF (s : TaskState T) : Prop :=
  s.gateArmed = true ↔ s.status = .pending

instance (s : TaskState T) : Decidable (WF s) := by
  unfold WF; infer_instance

/-- A producer call issued against the task: `Resolve(v)`, `Cancel()` or
`Fail(err)`. -/
inductive POp (T : Type) where
  | resolveOp (v : T)
  | cancelOp
  | failOp (e : Option String)

/-- Run one producer call. -/
def applyOp (s : TaskState T) : POp T → TaskState T
  | .resolveOp v => resolve v s
  | .cancelOp => Cancel s
  | .failOp e => fail e s

/-- Run a sequence of producer calls in order. -/
def applyOps (s : TaskState T) (ops : List (POp T)) : TaskState T :=
  ops.foldl applyOp s

/-- Run a sequence of `Resolve` calls in order. -/
def resolves (l : List T) (s : TaskState T) : TaskState T :=
  l.foldl (fun a v => resolve v a) s

/-- Helper `asPointer` from `utils.go`: `nil` when `ok` is false, otherwise a
pointer to the value, modelled as `Option T`. -/
def asPointer (value : T) (ok : Bool) : Option T :=
  if !ok then none else some value

/-- An `Awaitable[A]` whose `Await` may act on an ambient world `σ`
(covers tasks, `AwaitableFn` wrappers, and anything else exposing the
blocking contract). -/
def AwaitableOn (σ : Type) (A : Type) : Type :=
  σ → (A × Bool) × σ

/-- Combinator `Await2`: awaits `t1` then `t2`, converting each result with
`asPointer`. -/
def Await2 {σ A B : Type} (t1 : AwaitableOn σ A) (t2 : AwaitableOn σ B)
    (w : σ) : (Option A × Option B) × σ :=
  let p1 := t1 w
  let p2 := t2 p1.2
  ((asPointer p1.1.1 p1.1.2, asPointer p2.1.1 p2.1.2), p2.2)

/-- Combinator `Await5`: awaits `t1` through `t5` in argument order, converting each
result with `asPointer`. -/
def Await5 {σ A B C D E : Type} (t1 : AwaitableOn σ A) (t2 : AwaitableOn σ B)
    (t3 : AwaitableOn σ C) (t4 : AwaitableOn σ D) (t5 : AwaitableOn σ E)
    (w : σ) : (Option A × Option B × Option C × Option D × Option E) × σ :=
  let p1 := t1 w
  let p2 := t2 p1.2
  let p3 := t3 p2.2
  let p4 := t4 p3.2
  let p5 := t5 p4.2
  ((asPointer p1.1.1 p1.1.2, asPointer p2.1.1 p2.1.2, asPointer p3.1.1 p3.1.2,
    asPointer p4.1.1 p4.1.2, asPointer p5.1.1 p5.1.2), p5.2)

/-! ### Helper lemmas shared by several claims -/

/-- Lemma: `Resolve` on a task that is not pending changes nothing. -/
theorem resolve_of_not_pending (v : T) (s : TaskState T)
    (h : s.status ≠ .pending) : resolve v s = s := by
  simp [resolve, h]

/-- Lemma: `cancel` on a task that is not pending reports failure and
changes nothing. -/
theorem cancel_of_not_pending (s : TaskState T)
    (h : s.status ≠ .pending) : cancel s = (false, s) := by
  unfold cancel
  rw [if_pos h]

/-- Lemma: `cancel` on a pending task succeeds. -/
theorem cancel_of_pending (s : TaskState T) (h : s.status = .pending) :
    cancel s = (true, { s with status := .canceled, gateArmed := false }) := by
  unfold cancel
  rw [if_neg (by simp [h])]

/-- Lemma: every producer call on a task that is not pending changes
nothing. -/
theorem applyOp_of_not_pending (s : TaskState T) (op : POp T)
    (h : s.status ≠ .pending) : applyOp s op = s := by
  cases op with
  | resolveOp v => exact resolve_of_not_pending v s h
  | cancelOp => simp [applyOp, Cancel, cancel_of_not_pending s h]
  | failOp e => simp [applyOp, fail, cancel_of_not_pending s h]

/-- Lemma: a whole sequence of producer calls on a task that is not
pending changes nothing. -/
theorem applyOps_of_not_pending (s : TaskState T) (ops : List (POp T))
    (h : s.status ≠ .pending) : applyOps s ops = s := by
  induction ops with
  | nil => rfl
  | cons o rest ih =>
    show applyOps (applyOp s o) rest = s
    rw [applyOp_of_not_pending s o h]
    exact ih

/-- Lemma: every producer call on an enabled pending task leaves the
pending state. -/
theorem applyOp_status_ne_pending (s : TaskState T) (op : POp T)
    (hp : s.status = .pending) (hd : s.disabled = false) :
    (applyOp s op).status ≠ .pending := by
  cases op with
  | resolveOp v =>
    simp [applyOp, resolve, hp, hd]
  | cancelOp =>
    simp [applyOp, Cancel, cancel_of_pending s hp]
  | failOp e =>
    simp [applyOp, fail, cancel_of_pending s hp]

/-- Lemma: a sequence of `Resolve` calls on a task that is not pending
changes nothing. -/
theorem resolves_of_not_pending (l : List T) (s : TaskState T)
    (h : s.status ≠ .pending) : resolves l s = s := by
  induction l with
  | nil => rfl
  | cons v rest ih =>
    show resolves rest (resolve v s) = s
    rw [resolve_of_not_pending v s h]
    exact ih

/-! ### Claims -/

/-- C2: `Reset()` returns false and leaves the whole state unchanged when
the status is pending or the task is disabled; otherwise it returns true,
sets the status to pending (so that a subsequent `Await` blocks again),
restores the default value, clears the error and clears the
panic-on-cancel flag. -/
theorem c2_reset (s : TaskState T) (hwf : WF s) :
    ((s.status = .pending ∨ s.disabled = true) →
      reset s = .ret (false, s)) ∧
    (s.status ≠ .pending → s.disabled = false →
      reset s = .ret (true,
        { s with
          status := .pending
          value := s.defaultValue
          err := none
          panicOnCancel := false
          gateArmed := true }) ∧
      awaitO ({ s with
                status := .pending
                value := s.defaultValue
                err := none
                panicOnCancel := false
                gateArmed := true } : TaskState T) = .blocks) := by
  constructor
  · rintro (hp | hd)
    · simp [reset, hp]
    · simp [reset, hd]
  · intro hp hd
    have hg : s.gateArmed = false := by
      rcases hga : s.gateArmed with _ | _
      · rfl
      · exact absurd (hwf.mp hga) hp
    constructor
    · unfold reset
      rw [if_neg (by simp [hd]), if_neg hp, if_neg (by simp [hg])]
    · unfold awaitO
      rw [if_pos (by constructor <;> rfl)]

/-- Witness for C2 at a concrete canceled task. -/
theorem c2_reset_witness :
    WF (Cancel (newTask (0 : Nat))) ∧
    reset (Cancel (newTask (0 : Nat))) = .ret (true,
      { Cancel (newTask (0 : Nat)) with
        status := .pending
        value := (Cancel (newTask (0 : Nat))).defaultValue
        err := none
        panicOnCancel := false
        gateArmed := true }) :=
  ⟨by decide,
    ((c2_reset (Cancel (newTask 0)) (by decide)).2 (by decide) (by decide)).1⟩

/-- C4 counterexample: on a disabled pending task, `Cancel()` does mutate
the state (it cancels the task), so not every mutating operation is a
no-op while disabled. -/
theorem c4_counterexample :
    Cancel (disable (newTask (0 : Nat))) ≠ disable (newTask (0 : Nat)) := by
  decide

/-- C4 amended: while a task is disabled, `Resolve`, `SetPanic` and
`Reset` leave the entire state unchanged, but `Cancel` and `Fail` ignore
the disabled flag: on a disabled non-pending task they are no-ops, while
on a disabled pending task they still cancel it (and `Fail` records the
error). -/
theorem c4_amended (s : TaskState T) (v : T) (b : Bool) (e : Option String)
    (hd : s.disabled = true) :
    resolve v s = s ∧
    setPanic b s = s ∧
    reset s = .ret (false, s) ∧
    (s.status ≠ .pending → Cancel s = s ∧ fail e s = s) ∧
    (s.status = .pending →
      (Cancel s).status = .canceled ∧ (fail e s).status = .canceled ∧
      (fail e s).err = e) := by
  refine ⟨?_, ?_, ?_, ?_, ?_⟩
  · unfold resolve
    rw [if_pos hd]
  · unfold setPanic
    rw [if_pos hd]
  · unfold reset
    rw [if_pos hd]
  · intro hp
    constructor
    · simp [Cancel, cancel_of_not_pending s hp]
    · simp [fail, cancel_of_not_pending s hp]
  · intro hp
    refine ⟨?_, ?_, ?_⟩
    · simp [Cancel, cancel_of_pending s hp]
    · simp [fail, cancel_of_pending s hp]
    · simp [fail, cancel_of_pending s hp]

/-- Witness for C4 amended at a concrete disabled pending task. -/
theorem c4_amended_witness :
    (disable (newTask (0 : Nat))).disabled = true ∧
    resolve 5 (disable (newTask (0 : Nat))) = disable (newTask 0) ∧
    (fail (some "boom") (disable (newTask (0 : Nat)))).err = some "boom" :=
  ⟨by decide,
    (c4_amended (disable (newTask 0)) 5 true (some "boom") (by decide)).1,
    ((c4_amended (disable (newTask 0)) 5 true (some "boom") (by decide)).2.2.2.2
      (by decide)).2.2⟩

/-- C5 counterexample: a task resolved with 5 and then disabled by the
pool still has `Await` return the stored value with `ok = true`, not the
default value with `ok = false`. -/
theorem c5_counterexample :
    awaitO (disable (resolve 5 (newTask (0 : Nat)))) = .ret (5, true) ∧
    awaitO (disable (resolve 5 (newTask (0 : Nat)))) ≠ .ret (0, false) := by
  decide

/-- C5 amended: `Await` (and `Anticipate`) ignore the disabled flag
entirely: a disabled task behaves exactly like the same task enabled —
`Await` still blocks while it is pending with the gate armed and
otherwise returns the stored value with `ok = (status == Resolved)`. -/
theorem c5_amended (s : TaskState T) (b : Bool) :
    awaitO { s with disabled := b } = awaitO s ∧
    anticipateO { s with disabled := b } = anticipateO s :=
  ⟨rfl, rfl⟩

/-- Witness for C5 amended at a concrete resolved-then-disabled task. -/
theorem c5_amended_witness :
    awaitO { resolve 5 (newTask (0 : Nat)) with disabled := true } =
      awaitO (resolve 5 (newTask (0 : Nat))) :=
  (c5_amended (resolve 5 (newTask 0)) true).1

/-- C7: `Await` panics (with `ErrCancelled`) exactly when the
panic-on-cancel flag is set and the status is canceled; `Anticipate`
never panics, and on a canceled task it returns the pair form
`(value, false)` even when the panic flag is set. -/
theorem c7_await_panic (s : TaskState T) :
    (awaitO s = .panics ↔ s.panicOnCancel = true ∧ s.status = .canceled) ∧
    anticipateO s ≠ .panics ∧
    (s.status = .canceled → anticipateO s = .ret (s.value, false)) := by
  refine ⟨?_, ?_, ?_⟩
  · unfold awaitO
    split
    · rename_i h
      simp only [h.1]
      constructor
      · intro hc
        exact absurd hc (by simp)
      · rintro ⟨-, hc⟩
        cases hc
    · split
      · rename_i h
        simp [h.1, h.2]
      · rename_i h1 h2
        constructor
        · intro hc
          exact absurd hc (by simp)
        · rintro ⟨hb, hc⟩
          exact absurd ⟨hc, hb⟩ h2
  · unfold anticipateO
    split
    · simp
    · simp
  · intro hc
    unfold anticipateO
    rw [if_neg (by simp [hc])]
    simp [hc]

/-- Witness for C7 at a concrete canceled task with the panic flag set. -/
theorem c7_await_panic_witness :
    awaitO (setPanic true (Cancel (newTask (0 : Nat)))) = .panics ∧
    anticipateO (setPanic true (Cancel (newTask (0 : Nat)))) =
      .ret (0, false) :=
  ⟨(c7_await_panic (setPanic true (Cancel (newTask 0)))).1.mpr (by decide),
    (c7_await_panic (setPanic true (Cancel (newTask 0)))).2.2 (by decide)⟩

/-- C1: from an enabled pending task, for any nonempty sequence of
producer calls (`Resolve`, `Cancel`, `Fail`) exactly one call — the
first — changes the status; every prefix of length at least one folds to
the state reached after the first call, so once the task is resolved or
canceled every later producer call is a complete no-op (in particular
there is no resolved-to-canceled transition or back), and the `Await`
outcome observed after any prefix containing the winning call is the
same. -/
theorem c1_single_resolution (s : TaskState T) (ops : List (POp T))
    (hp : s.status = .pending) (hd : s.disabled = false) (hne : ops ≠ []) :
    (∃! i : Nat, i < ops.length ∧
      (applyOps s (ops.take (i + 1))).status ≠
        (applyOps s (ops.take i)).status) ∧
    (∀ i : Nat, 1 ≤ i →
      applyOps s (ops.take i) = applyOp s (ops.head hne)) ∧
    (∀ i : Nat, 1 ≤ i →
      awaitO (applyOps s (ops.take i)) = awaitO (applyOp s (ops.head hne))) := by
  match ops, hne with
  | o :: rest, hne =>
    have hn1 : (applyOp s o).status ≠ .pending :=
      applyOp_status_ne_pending s o hp hd
    have hstep : ∀ i : Nat, 1 ≤ i →
        applyOps s ((o :: rest).take i) = applyOp s o := by
      intro i hi
      obtain ⟨j, rfl⟩ : ∃ j, i = j + 1 := ⟨i - 1, by omega⟩
      rw [List.take_succ_cons]
      show applyOps (applyOp s o) (rest.take j) = applyOp s o
      exact applyOps_of_not_pending _ _ hn1
    have hhead : (o :: rest).head hne = o := rfl
    refine ⟨⟨0, ⟨by simp, ?_⟩, ?_⟩, ?_, ?_⟩
    · rw [hstep 1 le_rfl]
      show (applyOp s o).status ≠ (applyOps s []).status
      show (applyOp s o).status ≠ s.status
      rw [hp]
      exact hn1
    · rintro y ⟨hy, hych⟩
      by_contra hy0
      have hy1 : 1 ≤ y := by omega
      rw [hstep (y + 1) (by omega), hstep y hy1] at hych
      exact hych rfl
    · intro i hi
      rw [hhead]
      exact hstep i hi
    · intro i hi
      rw [hhead, hstep i hi]

/-- Witness for C1 at a concrete task and call sequence. -/
theorem c1_single_resolution_witness :
    (newTask (0 : Nat)).status = .pending ∧
    applyOps (newTask (0 : Nat))
        ([POp.cancelOp, POp.resolveOp 5, POp.failOp (some "late")].take 3) =
      applyOp (newTask (0 : Nat))
        ([POp.cancelOp, POp.resolveOp 5,
          POp.failOp (some "late")].head (by simp)) :=
  ⟨rfl,
    (c1_single_resolution (newTask 0)
        [POp.cancelOp, POp.resolveOp 5, POp.failOp (some "late")]
        rfl rfl (by simp)).2.1 3 (by omega)⟩

/-- C3: if `Cancel()` takes effect on a pending task (with the pending
default value stored and the panic flag clear), then any sequence of
subsequent `Resolve` calls changes nothing at all, and `Await` returns
the default value of the type with `ok = false`. -/
theorem c3_cancel_wins (s : TaskState T) (hp : s.status = .pending)
    (hv : s.value = s.defaultValue) (hpc : s.panicOnCancel = false) :
    (cancel s).1 = true ∧
    (∀ l : List T, resolves l (cancel s).2 = (cancel s).2) ∧
    (∀ l : List T,
      awaitO (resolves l (cancel s).2) = .ret (s.defaultValue, false)) := by
  have hc := cancel_of_pending s hp
  have hns : ((cancel s).2).status ≠ .pending := by
    simp [hc]
  refine ⟨by rw [hc], fun l => resolves_of_not_pending l _ hns, fun l => ?_⟩
  rw [resolves_of_not_pending l _ hns, hc]
  unfold awaitO
  simp [hpc, hv]

/-- Witness for C3 at a concrete task and resolve sequence. -/
theorem c3_cancel_wins_witness :
    (newTask (0 : Nat)).status = .pending ∧
    (cancel (newTask (0 : Nat))).1 = true ∧
    awaitO (resolves [7, 8] (cancel (newTask (0 : Nat))).2) =
      .ret (0, false) :=
  ⟨rfl, (c3_cancel_wins (newTask 0) rfl rfl rfl).1,
    (c3_cancel_wins (newTask 0) rfl rfl rfl).2.2 [7, 8]⟩

/-- Lemma: a successful `Reset` leaves no recorded error. -/
theorem reset_success_err (s r : TaskState T)
    (h : reset s = .ret (true, r)) : r.err = none := by
  unfold reset at h
  split at h
  · simp at h
  · split at h
    · simp at h
    · split at h
      · simp at h
      · simp only [Outcome.ret.injEq, Prod.mk.injEq, true_and] at h
        rw [← h]

/-- C6: `Fail(err)` drives the state machine exactly like `Cancel()`
(same status, value, flags and gate), records the error exactly when the
task was pending (the cancellation took effect), and otherwise is a
complete no-op, so a previously recorded error is never overwritten;
`Error()` reads the recorded failure, a fresh task has none, and a
successful `Reset` clears it. -/
theorem c6_fail_error (s : TaskState T) (e : Option String) :
    (fail e s).status = (Cancel s).status ∧
    (fail e s).value = (Cancel s).value ∧
    (fail e s).panicOnCancel = (Cancel s).panicOnCancel ∧
    (fail e s).disabled = (Cancel s).disabled ∧
    (fail e s).gateArmed = (Cancel s).gateArmed ∧
    (s.status = .pending → errorOf (fail e s) = e) ∧
    (s.status ≠ .pending → fail e s = s) ∧
    errorOf (newTask s.defaultValue) = none ∧
    (∀ r : TaskState T, reset s = .ret (true, r) → errorOf r = none) := by
  have hmain : (fail e s).status = (Cancel s).status ∧
      (fail e s).value = (Cancel s).value ∧
      (fail e s).panicOnCancel = (Cancel s).panicOnCancel ∧
      (fail e s).disabled = (Cancel s).disabled ∧
      (fail e s).gateArmed = (Cancel s).gateArmed := by
    by_cases hp : s.status = .pending
    · simp [fail, Cancel, cancel_of_pending s hp]
    · simp [fail, Cancel, cancel_of_not_pending s hp]
  refine ⟨hmain.1, hmain.2.1, hmain.2.2.1, hmain.2.2.2.1, hmain.2.2.2.2,
    ?_, ?_, rfl, fun r hr => reset_success_err s r hr⟩
  · intro hp
    simp [fail, cancel_of_pending s hp, errorOf]
  · intro hp
    simp [fail, cancel_of_not_pending s hp]

/-- Witness for C6 at a concrete pending task. -/
theorem c6_fail_error_witness :
    (newTask (0 : Nat)).status = .pending ∧
    errorOf (fail (some "oops") (newTask (0 : Nat))) = some "oops" :=
  ⟨rfl, (c6_fail_error (newTask 0) (some "oops")).2.2.2.2.2.1 rfl⟩

/-- Lemma: repeated `Await` never changes the task state. -/
theorem awaitN_snd (s : TaskState T) (n : Nat) : (awaitN s n).2 = s := by
  induction n with
  | zero => rfl
  | succ n ih => simp [awaitN, awaitStep, ih]

/-- Lemma: the outcomes of repeated `Await` are all equal. -/
theorem awaitN_fst (s : TaskState T) (n : Nat) :
    (awaitN s n).1 = List.replicate n (awaitO s) := by
  induction n with
  | zero => rfl
  | succ n ih => simp [awaitN, awaitStep, ih, List.replicate_succ]

/-- C8: after `Resolve(v)` takes effect on an enabled pending task,
calling `Await` `n` times returns the identical pair `(v, true)` each of
the `n` times, and no call changes the task state (in particular neither
the stored value nor the status). -/
theorem c8_repeatable_await (s : TaskState T) (v : T) (n : Nat)
    (hp : s.status = .pending) (hd : s.disabled = false) :
    (awaitN (resolve v s) n).1 =
      List.replicate n (Outcome.ret (v, true)) ∧
    (awaitN (resolve v s) n).2 = resolve v s ∧
    (resolve v s).status = .resolved ∧ (resolve v s).value = v := by
  have hr : resolve v s =
      { s with value := v, status := .resolved, gateArmed := false } := by
    unfold resolve
    rw [if_neg (by simp [hd]), if_neg (by simp [hp])]
  have ha : awaitO (resolve v s) = .ret (v, true) := by
    rw [hr]
    unfold awaitO
    simp
  exact ⟨by rw [awaitN_fst, ha], awaitN_snd _ n, by rw [hr], by rw [hr]⟩

/-- Witness for C8 at a concrete task, value and repeat count. -/
theorem c8_repeatable_await_witness :
    (newTask (0 : Nat)).status = .pending ∧
    (awaitN (resolve 7 (newTask (0 : Nat))) 3).1 =
      List.replicate 3 (Outcome.ret (7, true)) :=
  ⟨rfl, (c8_repeatable_await (newTask 0) 7 3 rfl rfl).1⟩

/-- Lemma: `asPointer` is `some` of the value exactly when `ok` holds. -/
theorem asPointer_eq_if {X : Type} (v : X) (ok : Bool) :
    asPointer v ok = if ok then some v else none := by
  cases ok <;> rfl

/-- Lemma: `asPointer` produces a present pointer exactly on `ok`. -/
theorem asPointer_isSome {X : Type} (v : X) (ok : Bool) :
    (asPointer v ok).isSome = ok := by
  cases ok <;> rfl

/-- C9: the arity-N combinators await their inputs in argument order —
each input runs in the world state the previous await returned — and
yield one optional result per input: `some` of the awaited value exactly
when that `Await` returned `ok = true`, `none` when it returned
`ok = false`. -/
theorem c9_combinators {σ A B C D E : Type}
    (t1 : AwaitableOn σ A) (t2 : AwaitableOn σ B) (t3 : AwaitableOn σ C)
    (t4 : AwaitableOn σ D) (t5 : AwaitableOn σ E) (w : σ) :
    (Await2 t1 t2 w =
      ((if (t1 w).1.2 then some (t1 w).1.1 else none,
        if (t2 (t1 w).2).1.2 then some (t2 (t1 w).2).1.1 else none),
       (t2 (t1 w).2).2)) ∧
    (Await5 t1 t2 t3 t4 t5 w =
      ((if (t1 w).1.2 then some (t1 w).1.1 else none,
        if (t2 (t1 w).2).1.2 then some (t2 (t1 w).2).1.1 else none,
        if (t3 (t2 (t1 w).2).2).1.2 then some (t3 (t2 (t1 w).2).2).1.1
          else none,
        if (t4 (t3 (t2 (t1 w).2).2).2).1.2 then
          some (t4 (t3 (t2 (t1 w).2).2).2).1.1 else none,
        if (t5 (t4 (t3 (t2 (t1 w).2).2).2).2).1.2 then
          some (t5 (t4 (t3 (t2 (t1 w).2).2).2).2).1.1 else none),
       (t5 (t4 (t3 (t2 (t1 w).2).2).2).2).2)) ∧
    (∀ (v : A) (ok : Bool), asPointer v ok = if ok then some v else none) ∧
    (∀ (v : A) (ok : Bool), (asPointer v ok).isSome = ok) := by
  refine ⟨?_, ?_, fun v ok => asPointer_eq_if v ok,
    fun v ok => asPointer_isSome v ok⟩
  · simp only [Await2, asPointer_eq_if]
  · simp only [Await5, asPointer_eq_if]

/-- Awaitable test fixture: returns the fixed pair and appends its index
to the world log, so the order of awaits is observable. -/
def logAwaitable (i v : Nat) (ok : Bool) : AwaitableOn (List Nat) Nat :=
  fun w => ((v, ok), w ++ [i])

/-- Witness for C9 on concrete awaitables with an observable log. -/
theorem c9_combinators_witness :
    Await5 (logAwaitable 1 10 true) (logAwaitable 2 20 false)
        (logAwaitable 3 30 true) (logAwaitable 4 40 true)
        (logAwaitable 5 50 false) [] =
      ((some 10, none, some 30, some 40, none), [1, 2, 3, 4, 5]) :=
  ((c9_combinators (logAwaitable 1 10 true) (logAwaitable 2 20 false)
      (logAwaitable 3 30 true) (logAwaitable 4 40 true)
      (logAwaitable 5 50 false) []).2.1).trans (by decide)

/-- C10: `Yield()` on a task whose observed `Await` outcome is canceled
(`ok = false`, panic flag clear) returns false and changes nothing; on a
resolved task (gate disarmed) it returns true, sets the status back to
pending and the value back to the default — also when the task is
disabled, since `Yield` performs no disabled check — and every normal
return of `Yield` leaves the recorded error, the panic-on-cancel flag
and the disabled flag unchanged (unlike `Reset`). -/
theorem c10_yield (s : TaskState T) :
    (s.status = .canceled → s.panicOnCancel = false →
      yieldO s = .ret (false, s)) ∧
    (s.status = .resolved → s.gateArmed = false →
      yieldO s = .ret (true,
        { s with
          status := .pending
          value := s.defaultValue
          gateArmed := true }) ∧
      yieldO { s with disabled := true } = .ret (true,
        { s with
          disabled := true
          status := .pending
          value := s.defaultValue
          gateArmed := true })) ∧
    (∀ (b : Bool) (r : TaskState T), yieldO s = .ret (b, r) →
      r.err = s.err ∧ r.panicOnCancel = s.panicOnCancel ∧
      r.disabled = s.disabled) := by
  refine ⟨?_, ?_, ?_⟩
  · intro hc hpc
    simp [yieldO, awaitO, hc, hpc]
  · intro hr hg
    constructor
    · simp [yieldO, awaitO, hr, hg]
    · simp [yieldO, awaitO, hr, hg]
  · intro b r h
    unfold yieldO at h
    split at h
    · simp at h
    · simp at h
    · split at h
      · simp only [Outcome.ret.injEq, Prod.mk.injEq] at h
        rw [← h.2]
        exact ⟨rfl, rfl, rfl⟩
      · split at h
        · simp at h
        · simp only [Outcome.ret.injEq, Prod.mk.injEq] at h
          rw [← h.2]
          exact ⟨rfl, rfl, rfl⟩

/-- Witness for C10 at a concrete resolved task. -/
theorem c10_yield_witness :
    (resolve 7 (newTask (0 : Nat))).status = .resolved ∧
    yieldO (resolve 7 (newTask (0 : Nat))) = .ret (true,
      { resolve 7 (newTask (0 : Nat)) with
        status := .pending
        value := (resolve 7 (newTask (0 : Nat))).defaultValue
        gateArmed := true }) :=
  ⟨by decide,
    ((c10_yield (resolve 7 (newTask 0))).2.1 (by decide) (by decide)).1⟩

end Quest
